import Mathlib

/-!
Verification development for the bevy-physics sandbox.

The systems of src/main.rs are shallowly embedded over exact real
arithmetic (in place of 32-bit floats): spherical containment physics
(stay_inside_big_ball_system), the cursor capture toggle
(lock_hide_cursor), ground regeneration (ground_change_detector with
spawn_ground), keyboard camera translation (mouse_movement) and
pointer free look (mouse_free_look).
-/

namespace BevyPhysics

/-- Three-component real vector, modelling the f32 vector type Vec3. -/
@[ext]
structure Vec3 where
  x : ℝ
  y : ℝ
  z : ℝ

namespace Vec3

/-- Componentwise addition. -/
def add (a b : Vec3) : Vec3 := ⟨a.x + b.x, a.y + b.y, a.z + b.z⟩

/-- Componentwise subtraction. -/
def sub (a b : Vec3) : Vec3 := ⟨a.x - b.x, a.y - b.y, a.z - b.z⟩

/-- Componentwise negation. -/
def neg (a : Vec3) : Vec3 := ⟨-a.x, -a.y, -a.z⟩

/-- Scalar multiplication. -/
def smul (c : ℝ) (a : Vec3) : Vec3 := ⟨c * a.x, c * a.y, c * a.z⟩

instance : Add Vec3 := ⟨add⟩

instance : Sub Vec3 := ⟨sub⟩

instance : Neg Vec3 := ⟨neg⟩

instance : SMul ℝ Vec3 := ⟨smul⟩

instance : Zero Vec3 := ⟨⟨0, 0, 0⟩⟩

noncomputable instance : DecidableEq Vec3 := fun _ _ => Classical.dec _

/-- Dot product. -/
def dot (a b : Vec3) : ℝ := a.x * b.x + a.y * b.y + a.z * b.z

/-- Squared euclidean length (length_squared in glam). -/
def lengthSq (a : Vec3) : ℝ := a.x ^ 2 + a.y ^ 2 + a.z ^ 2

/-- Euclidean length. -/
noncomputable def length (a : Vec3) : ℝ := Real.sqrt a.lengthSq

/-- Normalization: the vector scaled by the reciprocal of its length. -/
noncomputable def normalize (a : Vec3) : Vec3 := (a.length)⁻¹ • a

/-- Cross product. -/
def cross (a b : Vec3) : Vec3 :=
  ⟨a.y * b.z - a.z * b.y, a.z * b.x - a.x * b.z, a.x * b.y - a.y * b.x⟩

end Vec3

/-- Collider shapes occurring in the program: ball colliders for the
spheres, cuboid colliders for the ground. -/
inductive Collider where
  | ball (radius : ℝ)
  | cuboid (hx : ℝ) (hy : ℝ) (hz : ℝ)

/-- The as_ball accessor: the radius when the collider is a ball shape. -/
def Collider.asBall : Collider → Option ℝ
  | Collider.ball r => Option.some r
  | Collider.cuboid _ _ _ => Option.none

/-- The data of a SmallBall entity as queried by
stay_inside_big_ball_system: its Transform translation, its Collider
and its Velocity linvel. -/
structure BallEntity where
  translation : Vec3
  collider : Collider
  linvel : Vec3

/-- Hard-coded boundary radius from the setup function. -/
def big_ball_radius : ℝ := 14

/-- Boundary sphere center: x = 0, y = sphere_size + 5, z = 0. -/
def big_ball_center : Vec3 := ⟨0, 14 + 5, 0⟩

/-- Maximum allowed distance from the center for a contained ball of
the given radius, reduced by the 0.2 buffer. -/
def max_distance (r : ℝ) : ℝ := big_ball_radius - r - 0.2

/-- Vector from the big sphere center to the small ball center. -/
def to_small_ball (e : BallEntity) : Vec3 := e.translation - big_ball_center

/-- Distance of the contained body from the boundary center. -/
noncomputable def distance (e : BallEntity) : ℝ := (to_small_ball e).length

/-- Inward-pointing normal at the point of collision: the negated
normalized offset direction. -/
noncomputable def inward_normal (e : BallEntity) : Vec3 := -(to_small_ball e).normalize

/-- Loop body of stay_inside_big_ball_system for one queried entity:
skip non-ball colliders; when the distance exceeds max_distance,
reposition onto the allowed sphere and reflect the velocity if it
still points outward. -/
noncomputable def stay_inside_big_ball (e : BallEntity) : BallEntity :=
  match e.collider.asBall with
  | Option.none => e
  | Option.some small_ball_radius =>
    if max_distance small_ball_radius < distance e then
      { e with
        translation :=
          big_ball_center + (max_distance small_ball_radius) • (to_small_ball e).normalize,
        linvel :=
          if e.linvel.dot (inward_normal e) < 0 then
            e.linvel - (2 * e.linvel.dot (inward_normal e)) • inward_normal e
          else
            e.linvel }
    else e

/-- The full system: the per-entity correction applied to every entity
matched by the SmallBall query. -/
noncomputable def stay_inside_big_ball_system (balls : List BallEntity) : List BallEntity :=
  balls.map stay_inside_big_ball

/-- Cursor grab modes of the bevy window type. -/
inductive CursorGrabMode where
  | none
  | confined
  | locked
deriving DecidableEq

/-- The window cursor_options fields touched or read by the program. -/
structure CursorOptions where
  visible : Bool
  grab_mode : CursorGrabMode
  hit_test : Bool
deriving DecidableEq

/-- The lock_hide_cursor system: from the released configuration
(pointer visible, grab mode None) it hides and confines the cursor;
from every other configuration it makes the cursor visible and
unconstrained.  The hit_test lines of the source are commented out, so
hit_test is never written. -/
def lock_hide_cursor (w : CursorOptions) : CursorOptions :=
  if w.visible = true ∧ w.grab_mode = CursorGrabMode.none then
    { w with visible := false, grab_mode := CursorGrabMode.confined }
  else
    { w with visible := true, grab_mode := CursorGrabMode.none }

/-- A Ground entity: box mesh dimensions, cuboid collider half-extents
and the fixed transform. -/
structure GroundEnt where
  mesh : Vec3
  collider : Vec3
  translation : Vec3

/-- The spawn_ground helper: one Ground entity whose cuboid mesh has
the settings dimensions, whose collider has the half dimensions, at
the fixed offset below the origin. -/
noncomputable def spawn_ground (ground_size : Vec3) : GroundEnt :=
  { mesh := ground_size,
    collider := ⟨ground_size.x / 2, ground_size.y / 2, ground_size.z / 2⟩,
    translation := ⟨0, -2, 0⟩ }

/-- The state read and written by ground_change_detector: the Ground
entities currently alive, the cached PreviousGroundSize, and the
GROUND_SIZE value in the settings store. -/
structure GroundState where
  grounds : List GroundEnt
  prev : Vec3
  ground_size : Vec3

/-- The ground_change_detector system: when the current GROUND_SIZE
differs from the cached previous value, despawn every Ground entity,
spawn one ground from the current size and update the cache; otherwise
do nothing. -/
noncomputable def ground_change_detector (s : GroundState) : GroundState :=
  if s.ground_size = s.prev then s
  else { s with grounds := [spawn_ground s.ground_size], prev := s.ground_size }

/-- Real quaternion with glam field order, modelling Quat. -/
@[ext]
structure Quat where
  x : ℝ
  y : ℝ
  z : ℝ
  w : ℝ

namespace Quat

/-- Hamilton product. -/
def mul (a b : Quat) : Quat :=
  ⟨a.w * b.x + a.x * b.w + a.y * b.z - a.z * b.y,
   a.w * b.y - a.x * b.z + a.y * b.w + a.z * b.x,
   a.w * b.z + a.x * b.y - a.y * b.x + a.z * b.w,
   a.w * b.w - a.x * b.x - a.y * b.y - a.z * b.z⟩

instance : Mul Quat := ⟨mul⟩

/-- Squared norm of a quaternion. -/
def normSq (q : Quat) : ℝ := q.x ^ 2 + q.y ^ 2 + q.z ^ 2 + q.w ^ 2

/-- Euclidean norm of a quaternion. -/
noncomputable def norm (q : Quat) : ℝ := Real.sqrt q.normSq

/-- Normalization: every component divided by the norm. -/
noncomputable def normalize (q : Quat) : Quat :=
  ⟨q.x / q.norm, q.y / q.norm, q.z / q.norm, q.w / q.norm⟩

/-- Quat::from_rotation_x: rotation about the x axis by the angle. -/
noncomputable def from_rotation_x (angle : ℝ) : Quat :=
  ⟨Real.sin (angle / 2), 0, 0, Real.cos (angle / 2)⟩

/-- Quat::from_rotation_y: rotation about the y axis by the angle. -/
noncomputable def from_rotation_y (angle : ℝ) : Quat :=
  ⟨0, Real.sin (angle / 2), 0, Real.cos (angle / 2)⟩

/-- Action of a quaternion on a vector, following the glam formula
used by mul_vec3. -/
noncomputable def rotate (q : Quat) (v : Vec3) : Vec3 :=
  (q.w * q.w - Vec3.dot ⟨q.x, q.y, q.z⟩ ⟨q.x, q.y, q.z⟩) • v +
    (Vec3.dot v ⟨q.x, q.y, q.z⟩ * 2) • (⟨q.x, q.y, q.z⟩ : Vec3) +
    (q.w * 2) • Vec3.cross ⟨q.x, q.y, q.z⟩ v

end Quat

/-- The camera Transform fields the systems use. -/
structure Transform where
  translation : Vec3
  rotation : Quat

/-- Transform::forward: the rotated negative z axis. -/
noncomputable def Transform.forward (t : Transform) : Vec3 := t.rotation.rotate ⟨0, 0, -1⟩

/-- Transform::back: the rotated positive z axis. -/
noncomputable def Transform.back (t : Transform) : Vec3 := t.rotation.rotate ⟨0, 0, 1⟩

/-- Transform::left: the rotated negative x axis. -/
noncomputable def Transform.left (t : Transform) : Vec3 := t.rotation.rotate ⟨-1, 0, 0⟩

/-- Transform::right: the rotated positive x axis. -/
noncomputable def Transform.right (t : Transform) : Vec3 := t.rotation.rotate ⟨1, 0, 0⟩

/-- Which of the four movement keys are held this frame. -/
structure KeyState where
  keyW : Bool
  keyS : Bool
  keyA : Bool
  keyD : Bool

/-- The summed direction vector of the mouse_movement system before
normalization. -/
noncomputable def move_direction (keyboard : KeyState) (t : Transform) : Vec3 :=
  let d0 : Vec3 := 0
  let d1 := if keyboard.keyW then d0 + t.forward else d0
  let d2 := if keyboard.keyS then d1 + t.back else d1
  let d3 := if keyboard.keyA then d2 + t.left else d2
  if keyboard.keyD then d3 + t.right else d3

/-- The mouse_movement system: when the summed direction of the held
keys is nonzero, normalize it and advance the camera translation by
direction times speed 5 times the elapsed seconds. -/
noncomputable def mouse_movement (keyboard : KeyState) (delta_secs : ℝ)
    (t : Transform) : Transform :=
  let direction := move_direction keyboard t
  if 0 < direction.lengthSq then
    { t with translation := t.translation + delta_secs • ((5 : ℝ) • direction.normalize) }
  else t

/-- One mouse-motion event of the mouse_free_look system: scale the
delta by sensitivity and elapsed seconds, pre-multiply the yaw
quaternion onto the normalized rotation, then post-multiply the pitch
quaternion onto the renormalized result. -/
noncomputable def mouse_free_look_step (sensitivity delta_secs : ℝ)
    (event : ℝ × ℝ) (rotation : Quat) : Quat :=
  let dx := event.1 * sensitivity * delta_secs
  let dy := event.2 * sensitivity * delta_secs
  let yaw := Quat.from_rotation_y (-dx)
  let pitch := Quat.from_rotation_x (-dy)
  (Quat.mul yaw rotation.normalize).normalize.mul pitch

/-- The mouse_free_look system: when the cursor is hidden, fold every
pending mouse-motion event into the camera rotation; otherwise leave
the rotation alone. -/
noncomputable def mouse_free_look (window : CursorOptions) (sensitivity delta_secs : ℝ)
    (events : List (ℝ × ℝ)) (rotation : Quat) : Quat :=
  if window.visible = false then
    events.foldl (fun q event => mouse_free_look_step sensitivity delta_secs event q) rotation
  else rotation

/-- Concrete contained ball outside the boundary moving outward,
used as a test input. -/
noncomputable def ballOutwardSample : BallEntity :=
  { translation := ⟨0, 33, 0⟩, collider := Collider.ball 0.5, linvel := ⟨0, 5, 0⟩ }

/-- Concrete contained ball outside the boundary moving inward. -/
noncomputable def ballInwardSample : BallEntity :=
  { translation := ⟨0, 33, 0⟩, collider := Collider.ball 0.5, linvel := ⟨0, -5, 0⟩ }

/-- Concrete contained ball exactly at the boundary center. -/
noncomputable def ballCenterSample : BallEntity :=
  { translation := ⟨0, 19, 0⟩, collider := Collider.ball 0.5, linvel := ⟨1, 2, 3⟩ }

/-- Concrete entity with a cuboid collider far outside the boundary. -/
noncomputable def cuboidSample : BallEntity :=
  { translation := ⟨100, 100, 100⟩, collider := Collider.cuboid 1 1 1, linvel := ⟨5, 5, 5⟩ }

/-- Window in the released configuration. -/
def releasedWindow : CursorOptions :=
  { visible := true, grab_mode := CursorGrabMode.none, hit_test := true }

/-- Window in the captured configuration. -/
def capturedWindow : CursorOptions :=
  { visible := false, grab_mode := CursorGrabMode.confined, hit_test := true }

/-- Ground state whose settings value equals the cached previous value. -/
noncomputable def groundSample : GroundState :=
  { grounds := [spawn_ground ⟨20, 1, 15⟩], prev := ⟨20, 1, 15⟩, ground_size := ⟨20, 1, 15⟩ }

/-- Camera transform at the origin with the identity rotation. -/
noncomputable def idTransform : Transform :=
  { translation := ⟨0, 0, 0⟩, rotation := ⟨0, 0, 0, 1⟩ }

/-- Key state with only W held. -/
def keyWOnly : KeyState := ⟨true, false, false, false⟩

/-- The identity quaternion. -/
noncomputable def identityQuat : Quat := ⟨0, 0, 0, 1⟩

namespace Vec3

@[simp] lemma add_x (a b : Vec3) : (a + b).x = a.x + b.x := rfl

@[simp] lemma add_y (a b : Vec3) : (a + b).y = a.y + b.y := rfl

@[simp] lemma add_z (a b : Vec3) : (a + b).z = a.z + b.z := rfl

@[simp] lemma sub_x (a b : Vec3) : (a - b).x = a.x - b.x := rfl

@[simp] lemma sub_y (a b : Vec3) : (a - b).y = a.y - b.y := rfl

@[simp] lemma sub_z (a b : Vec3) : (a - b).z = a.z - b.z := rfl

@[simp] lemma neg_x (a : Vec3) : (-a).x = -a.x := rfl

@[simp] lemma neg_y (a : Vec3) : (-a).y = -a.y := rfl

@[simp] lemma neg_z (a : Vec3) : (-a).z = -a.z := rfl

@[simp] lemma smul_x (c : ℝ) (a : Vec3) : (c • a).x = c * a.x := rfl

@[simp] lemma smul_y (c : ℝ) (a : Vec3) : (c • a).y = c * a.y := rfl

@[simp] lemma smul_z (c : ℝ) (a : Vec3) : (c • a).z = c * a.z := rfl

@[simp] lemma zero_x : (0 : Vec3).x = 0 := rfl

@[simp] lemma zero_y : (0 : Vec3).y = 0 := rfl

@[simp] lemma zero_z : (0 : Vec3).z = 0 := rfl

lemma lengthSq_nonneg (a : Vec3) : 0 ≤ a.lengthSq := by
  unfold lengthSq; positivity

lemma length_nonneg (a : Vec3) : 0 ≤ a.length := Real.sqrt_nonneg _

lemma lengthSq_eq_zero (a : Vec3) : a.lengthSq = 0 ↔ a = 0 := by
  constructor
  · intro h
    have hx : a.x ^ 2 = 0 := by
      have := sq_nonneg a.x; have := sq_nonneg a.y; have := sq_nonneg a.z
      unfold lengthSq at h; nlinarith
    have hy : a.y ^ 2 = 0 := by
      have := sq_nonneg a.x; have := sq_nonneg a.y; have := sq_nonneg a.z
      unfold lengthSq at h; nlinarith
    have hz : a.z ^ 2 = 0 := by
      have := sq_nonneg a.x; have := sq_nonneg a.y; have := sq_nonneg a.z
      unfold lengthSq at h; nlinarith
    ext
    · exact sq_eq_zero_iff.mp hx
    · exact sq_eq_zero_iff.mp hy
    · exact sq_eq_zero_iff.mp hz
  · intro h; subst h; simp [lengthSq]

lemma lengthSq_pos (a : Vec3) (h : a ≠ 0) : 0 < a.lengthSq :=
  lt_of_le_of_ne (lengthSq_nonneg a) (fun e => h ((lengthSq_eq_zero a).mp e.symm))

lemma length_pos (a : Vec3) (h : a ≠ 0) : 0 < a.length :=
  Real.sqrt_pos.mpr (lengthSq_pos a h)

lemma length_eq_zero (a : Vec3) : a.length = 0 ↔ a = 0 := by
  rw [length, Real.sqrt_eq_zero (lengthSq_nonneg a)]
  exact lengthSq_eq_zero a

lemma length_zero : (0 : Vec3).length = 0 := (length_eq_zero 0).mpr rfl

lemma sq_length (a : Vec3) : a.length ^ 2 = a.lengthSq :=
  Real.sq_sqrt (lengthSq_nonneg a)

lemma lengthSq_smul (c : ℝ) (a : Vec3) : (c • a).lengthSq = c ^ 2 * a.lengthSq := by
  simp only [lengthSq, smul_x, smul_y, smul_z]; ring

lemma length_smul (c : ℝ) (a : Vec3) : (c • a).length = |c| * a.length := by
  rw [length, lengthSq_smul, Real.sqrt_mul (sq_nonneg c), Real.sqrt_sq_eq_abs, length]

lemma lengthSq_neg (a : Vec3) : (-a).lengthSq = a.lengthSq := by
  simp only [lengthSq, neg_x, neg_y, neg_z]; ring

lemma lengthSq_normalize (a : Vec3) (h : a ≠ 0) : a.normalize.lengthSq = 1 := by
  rw [normalize, lengthSq_smul, ← sq_length, ← mul_pow, inv_mul_cancel₀ (length_pos a h).ne',
    one_pow]

lemma length_normalize (a : Vec3) (h : a ≠ 0) : a.normalize.length = 1 := by
  rw [length, lengthSq_normalize a h, Real.sqrt_one]

lemma dot_zero_right (a : Vec3) : a.dot 0 = 0 := by simp [dot]

lemma sub_self_vec (a : Vec3) : a - a = 0 := by ext <;> simp

lemma add_sub_cancel_left_vec (a b : Vec3) : (a + b) - a = b := by ext <;> simp

lemma reflect_lengthSq (v n : Vec3) (hn : n.lengthSq = 1) :
    (v - (2 * v.dot n) • n).lengthSq = v.lengthSq := by
  have hn1 : n.x ^ 2 + n.y ^ 2 + n.z ^ 2 = 1 := hn
  simp only [lengthSq, dot, sub_x, sub_y, sub_z, smul_x, smul_y, smul_z]
  linear_combination (4 * (v.x * n.x + v.y * n.y + v.z * n.z) ^ 2) * hn1

lemma normalize_zero : (0 : Vec3).normalize = 0 := by
  rw [normalize]; ext <;> simp

end Vec3

namespace Quat

@[simp] lemma mul_def (a b : Quat) : a * b = a.mul b := rfl

lemma normSq_nonneg (q : Quat) : 0 ≤ q.normSq := by
  unfold normSq; positivity

lemma normSq_mul (a b : Quat) : (a.mul b).normSq = a.normSq * b.normSq := by
  simp only [mul, normSq]; ring

lemma norm_mul (a b : Quat) : (a.mul b).norm = a.norm * b.norm := by
  rw [norm, normSq_mul, Real.sqrt_mul (normSq_nonneg a), norm, norm]

lemma normalize_of_norm_one (q : Quat) (h : q.norm = 1) : q.normalize = q := by
  rw [normalize]; ext <;> simp [h]

lemma norm_from_rotation_x (angle : ℝ) : (from_rotation_x angle).norm = 1 := by
  rw [norm, from_rotation_x, normSq]
  simp only
  rw [show Real.sin (angle / 2) ^ 2 + 0 ^ 2 + 0 ^ 2 + Real.cos (angle / 2) ^ 2 =
    Real.sin (angle / 2) ^ 2 + Real.cos (angle / 2) ^ 2 by ring]
  rw [Real.sin_sq_add_cos_sq, Real.sqrt_one]

lemma norm_from_rotation_y (angle : ℝ) : (from_rotation_y angle).norm = 1 := by
  rw [norm, from_rotation_y, normSq]
  simp only
  rw [show (0 : ℝ) ^ 2 + Real.sin (angle / 2) ^ 2 + 0 ^ 2 + Real.cos (angle / 2) ^ 2 =
    Real.sin (angle / 2) ^ 2 + Real.cos (angle / 2) ^ 2 by ring]
  rw [Real.sin_sq_add_cos_sq, Real.sqrt_one]

end Quat

/-- One free-look step keeps a unit rotation at unit norm. -/
lemma norm_mouse_free_look_step (sensitivity delta_secs : ℝ) (event : ℝ × ℝ)
    (q : Quat) (h : q.norm = 1) :
    (mouse_free_look_step sensitivity delta_secs event q).norm = 1 := by
  simp only [mouse_free_look_step]
  rw [Quat.normalize_of_norm_one q h]
  have h1 : (Quat.mul (Quat.from_rotation_y (-(event.1 * sensitivity * delta_secs))) q).norm = 1 := by
    rw [Quat.norm_mul, Quat.norm_from_rotation_y, h, one_mul]
  rw [Quat.normalize_of_norm_one _ h1, Quat.norm_mul, h1, Quat.norm_from_rotation_x, mul_one]

/-- A ball collider reports its radius through asBall. -/
lemma asBall_of_collider_ball (e : BallEntity) (r : ℝ) (hc : e.collider = Collider.ball r) :
    e.collider.asBall = Option.some r := by
  rw [hc]; rfl

/-- Offset of the outward-moving sample ball from the boundary center. -/
lemma to_small_ball_outward : to_small_ball ballOutwardSample = ⟨0, 14, 0⟩ := by
  ext <;> simp [to_small_ball, ballOutwardSample, big_ball_center] <;> norm_num

/-- Distance of the outward-moving sample ball from the boundary center. -/
lemma distance_outward : distance ballOutwardSample = 14 := by
  rw [distance, to_small_ball_outward, Vec3.length]
  rw [show (Vec3.mk 0 14 0).lengthSq = 14 ^ 2 by norm_num [Vec3.lengthSq]]
  exact Real.sqrt_sq (by norm_num)

/-- Normalized offset direction at the outward-moving sample ball. -/
lemma normalize_outward : (to_small_ball ballOutwardSample).normalize = ⟨0, 1, 0⟩ := by
  have hl : (to_small_ball ballOutwardSample).length = 14 := distance_outward
  rw [Vec3.normalize, hl, to_small_ball_outward]
  ext <;> simp <;> norm_num

/-- Offset of the inward-moving sample ball from the boundary center. -/
lemma to_small_ball_inward : to_small_ball ballInwardSample = ⟨0, 14, 0⟩ := by
  ext <;> simp [to_small_ball, ballInwardSample, big_ball_center] <;> norm_num

/-- Distance of the inward-moving sample ball from the boundary center. -/
lemma distance_inward : distance ballInwardSample = 14 := by
  rw [distance, to_small_ball_inward, Vec3.length]
  rw [show (Vec3.mk 0 14 0).lengthSq = 14 ^ 2 by norm_num [Vec3.lengthSq]]
  exact Real.sqrt_sq (by norm_num)

/-- Normalized offset direction at the inward-moving sample ball. -/
lemma normalize_inward : (to_small_ball ballInwardSample).normalize = ⟨0, 1, 0⟩ := by
  have hl : (to_small_ball ballInwardSample).length = 14 := distance_inward
  rw [Vec3.normalize, hl, to_small_ball_inward]
  ext <;> simp <;> norm_num

/-- The sample ball at the boundary center has zero offset. -/
lemma to_small_ball_center : to_small_ball ballCenterSample = 0 := by
  ext <;> simp [to_small_ball, ballCenterSample, big_ball_center] <;> norm_num

/-- The sample ball at the boundary center has zero distance. -/
lemma distance_center : distance ballCenterSample = 0 := by
  rw [distance, to_small_ball_center, Vec3.length_zero]

/-- C1: after the containment correction runs, a contained ball-collider
body with nonnegative allowance sits within max_distance of the
boundary center, and a body found beyond max_distance is repositioned
to center + dir * max_distance, exactly at distance max_distance. -/
theorem containment_keeps_ball_inside (e : BallEntity) (r : ℝ)
    (hc : e.collider = Collider.ball r) (hr : 0 ≤ max_distance r) :
    distance (stay_inside_big_ball e) ≤ max_distance r ∧
    (max_distance r < distance e →
      (stay_inside_big_ball e).translation =
        big_ball_center + (max_distance r) • (to_small_ball e).normalize ∧
      distance (stay_inside_big_ball e) = max_distance r) := by
  have hball := asBall_of_collider_ball e r hc
  by_cases hd : max_distance r < distance e
  · have hne : to_small_ball e ≠ 0 := by
      intro h0
      rw [distance, h0, Vec3.length_zero] at hd
      exact absurd hd (not_lt.mpr hr)
    have htrans : (stay_inside_big_ball e).translation =
        big_ball_center + (max_distance r) • (to_small_ball e).normalize := by
      simp only [stay_inside_big_ball, hball, if_pos hd]
    have hdist : distance (stay_inside_big_ball e) = max_distance r := by
      rw [distance, to_small_ball, htrans, Vec3.add_sub_cancel_left_vec,
        Vec3.length_smul, Vec3.length_normalize _ hne, mul_one, abs_of_nonneg hr]
    exact ⟨le_of_eq hdist, fun _ => ⟨htrans, hdist⟩⟩
  · have heq : stay_inside_big_ball e = e := by
      simp only [stay_inside_big_ball, hball, if_neg hd]
    rw [heq]
    exact ⟨not_lt.mp hd, fun h => absurd h hd⟩

/-- C1 witness: the ball of radius 0.5 pushed to (0, 33, 0) has a
nonnegative allowance and ends exactly at distance max_distance. -/
theorem containment_keeps_ball_inside_witness :
    0 ≤ max_distance 0.5 ∧
    distance (stay_inside_big_ball ballOutwardSample) = max_distance 0.5 := by
  have hr : 0 ≤ max_distance 0.5 := by norm_num [max_distance, big_ball_radius]
  have hd : max_distance 0.5 < distance ballOutwardSample := by
    rw [distance_outward]; norm_num [max_distance, big_ball_radius]
  exact ⟨hr, ((containment_keeps_ball_inside ballOutwardSample 0.5 rfl hr).2 hd).2⟩

/-- C2: whenever the containment correction reflects the velocity
(the body is beyond max_distance and the velocity points outward
through the inward normal), the reflected velocity has exactly the
same magnitude as before. -/
theorem reflection_preserves_speed (e : BallEntity) (r : ℝ)
    (hc : e.collider = Collider.ball r)
    (hd : max_distance r < distance e)
    (hv : e.linvel.dot (inward_normal e) < 0) :
    ((stay_inside_big_ball e).linvel).length = e.linvel.length := by
  have hball := asBall_of_collider_ball e r hc
  have hne : to_small_ball e ≠ 0 := by
    intro h0
    rw [inward_normal, h0, Vec3.normalize_zero] at hv
    simp [Vec3.dot] at hv
  have hn1 : (inward_normal e).lengthSq = 1 := by
    rw [inward_normal, Vec3.lengthSq_neg, Vec3.lengthSq_normalize _ hne]
  have hlin : (stay_inside_big_ball e).linvel =
      e.linvel - (2 * e.linvel.dot (inward_normal e)) • inward_normal e := by
    simp only [stay_inside_big_ball, hball, if_pos hd, if_pos hv]
  rw [hlin, Vec3.length, Vec3.reflect_lengthSq _ _ hn1, Vec3.length]

/-- C2 witness: at (0, 33, 0) with velocity (0, 5, 0) the reflection
fires and preserves the speed. -/
theorem reflection_preserves_speed_witness :
    max_distance 0.5 < distance ballOutwardSample ∧
    ballOutwardSample.linvel.dot (inward_normal ballOutwardSample) < 0 ∧
    ((stay_inside_big_ball ballOutwardSample).linvel).length =
      ballOutwardSample.linvel.length := by
  have hd : max_distance 0.5 < distance ballOutwardSample := by
    rw [distance_outward]; norm_num [max_distance, big_ball_radius]
  have hv : ballOutwardSample.linvel.dot (inward_normal ballOutwardSample) < 0 := by
    rw [inward_normal, normalize_outward]
    norm_num [Vec3.dot, ballOutwardSample]
  exact ⟨hd, hv, reflection_preserves_speed ballOutwardSample 0.5 rfl hd hv⟩

/-- C3: a repositioned body whose velocity already points inward or
tangentially keeps its velocity (and its collider) unchanged. -/
theorem inward_velocity_unchanged (e : BallEntity) (r : ℝ)
    (hc : e.collider = Collider.ball r)
    (hd : max_distance r < distance e)
    (hv : 0 ≤ e.linvel.dot (inward_normal e)) :
    (stay_inside_big_ball e).linvel = e.linvel ∧
    (stay_inside_big_ball e).collider = e.collider := by
  have hball := asBall_of_collider_ball e r hc
  constructor
  · simp only [stay_inside_big_ball, hball, if_pos hd, if_neg (not_lt.mpr hv)]
  · simp only [stay_inside_big_ball, hball, if_pos hd]

/-- C3 witness: at (0, 33, 0) with inward velocity (0, -5, 0) the
velocity passes through unchanged. -/
theorem inward_velocity_unchanged_witness :
    max_distance 0.5 < distance ballInwardSample ∧
    0 ≤ ballInwardSample.linvel.dot (inward_normal ballInwardSample) ∧
    ((stay_inside_big_ball ballInwardSample).linvel = ballInwardSample.linvel ∧
     (stay_inside_big_ball ballInwardSample).collider = ballInwardSample.collider) := by
  have hd : max_distance 0.5 < distance ballInwardSample := by
    rw [distance_inward]; norm_num [max_distance, big_ball_radius]
  have hv : 0 ≤ ballInwardSample.linvel.dot (inward_normal ballInwardSample) := by
    rw [inward_normal, normalize_inward]
    norm_num [Vec3.dot, ballInwardSample]
  exact ⟨hd, hv, inward_velocity_unchanged ballInwardSample 0.5 rfl hd hv⟩

/-- C4: a contained body at distance at most max_distance, including
one exactly at the boundary center, is left entirely unchanged; the
normalization of the offset is never reached. -/
theorem no_correction_inside (e : BallEntity) (r : ℝ)
    (hc : e.collider = Collider.ball r)
    (hd : distance e ≤ max_distance r) :
    stay_inside_big_ball e = e := by
  have hball := asBall_of_collider_ball e r hc
  simp only [stay_inside_big_ball, hball, if_neg (not_lt.mpr hd)]

/-- C4 witness: the ball exactly at the boundary center is untouched. -/
theorem no_correction_inside_witness :
    distance ballCenterSample ≤ max_distance 0.5 ∧
    stay_inside_big_ball ballCenterSample = ballCenterSample := by
  have hd : distance ballCenterSample ≤ max_distance 0.5 := by
    rw [distance_center]; norm_num [max_distance, big_ball_radius]
  exact ⟨hd, no_correction_inside ballCenterSample 0.5 rfl hd⟩

/-- C10: an entity matched by the query whose collider is not a ball
is left entirely unchanged by the containment correction. -/
theorem non_ball_collider_untouched (e : BallEntity)
    (h : ∀ r : ℝ, e.collider ≠ Collider.ball r) :
    stay_inside_big_ball e = e := by
  have hball : e.collider.asBall = Option.none := by
    cases hcol : e.collider with
    | ball r => exact absurd hcol (h r)
    | cuboid a b c => rfl
  simp only [stay_inside_big_ball, hball]

/-- C10 witness: a cuboid-collider entity far outside the boundary is
untouched. -/
theorem non_ball_collider_untouched_witness :
    (∀ r : ℝ, cuboidSample.collider ≠ Collider.ball r) ∧
    stay_inside_big_ball cuboidSample = cuboidSample := by
  have h : ∀ r : ℝ, cuboidSample.collider ≠ Collider.ball r := by
    intro r; simp [cuboidSample]
  exact ⟨h, non_ball_collider_untouched cuboidSample h⟩

/-- C5 counterexample: triggering the toggle from the released state
leaves the window hit-testable, against the claim that the captured
state is not hit-testable. -/
theorem lock_hide_cursor_keeps_hit_test :
    ¬ ((lock_hide_cursor releasedWindow).hit_test = false) := by decide

/-- C5 (amended): on trigger in the released state the window becomes
hidden and confined; in any other state it becomes visible and
unconstrained; the hit-test flag is left unchanged in both cases. -/
theorem lock_hide_cursor_transitions (w : CursorOptions) :
    lock_hide_cursor w =
      if w.visible = true ∧ w.grab_mode = CursorGrabMode.none then
        { visible := false, grab_mode := CursorGrabMode.confined, hit_test := w.hit_test }
      else
        { visible := true, grab_mode := CursorGrabMode.none, hit_test := w.hit_test } := by
  rw [lock_hide_cursor]

/-- C6 counterexample: from the state visible with grab mode Confined,
toggling twice does not restore the original flags. -/
theorem double_toggle_not_involutive :
    ¬ (((lock_hide_cursor (lock_hide_cursor
          { visible := true, grab_mode := CursorGrabMode.confined,
            hit_test := true })).visible = true) ∧
       ((lock_hide_cursor (lock_hide_cursor
          { visible := true, grab_mode := CursorGrabMode.confined,
            hit_test := true })).grab_mode = CursorGrabMode.confined)) := by decide

/-- C6 (amended): on the two configurations the toggle itself
produces, released (visible, grab None) and captured (hidden, grab
Confined), applying the toggle twice restores the visibility and the
grab mode. -/
theorem double_toggle_involutive_on_canonical (w : CursorOptions)
    (h : (w.visible = true ∧ w.grab_mode = CursorGrabMode.none) ∨
         (w.visible = false ∧ w.grab_mode = CursorGrabMode.confined)) :
    (lock_hide_cursor (lock_hide_cursor w)).visible = w.visible ∧
    (lock_hide_cursor (lock_hide_cursor w)).grab_mode = w.grab_mode := by
  rcases h with ⟨h1, h2⟩ | ⟨h1, h2⟩ <;> simp [lock_hide_cursor, h1, h2]

/-- C6 witness: the released window is restored after two toggles. -/
theorem double_toggle_involutive_witness :
    ((releasedWindow.visible = true ∧ releasedWindow.grab_mode = CursorGrabMode.none) ∨
     (releasedWindow.visible = false ∧ releasedWindow.grab_mode = CursorGrabMode.confined)) ∧
    ((lock_hide_cursor (lock_hide_cursor releasedWindow)).visible = releasedWindow.visible ∧
     (lock_hide_cursor (lock_hide_cursor releasedWindow)).grab_mode =
       releasedWindow.grab_mode) :=
  ⟨Or.inl ⟨rfl, rfl⟩, double_toggle_involutive_on_canonical releasedWindow (Or.inl ⟨rfl, rfl⟩)⟩

/-- Unfolding of the ground detector on an unchanged size. -/
lemma ground_change_detector_of_eq (s : GroundState) (h : s.ground_size = s.prev) :
    ground_change_detector s = s := by
  rw [ground_change_detector, if_pos h]

/-- Unfolding of the ground detector on a changed size. -/
lemma ground_change_detector_of_ne (s : GroundState) (h : ¬ s.ground_size = s.prev) :
    ground_change_detector s =
      { s with grounds := [spawn_ground s.ground_size], prev := s.ground_size } := by
  rw [ground_change_detector, if_neg h]

/-- C7: the ground synchronizer is a no-op when the settings size
equals the cached previous size, and running it twice with the same
settings value changes nothing beyond the first run. -/
theorem ground_detector_noop_and_idempotent (s : GroundState) :
    (s.ground_size = s.prev → ground_change_detector s = s) ∧
    ground_change_detector (ground_change_detector s) = ground_change_detector s := by
  refine ⟨ground_change_detector_of_eq s, ?_⟩
  by_cases h : s.ground_size = s.prev
  · rw [ground_change_detector_of_eq s h, ground_change_detector_of_eq s h]
  · rw [ground_change_detector_of_ne s h]
    exact ground_change_detector_of_eq _ rfl

/-- C7 witness: with the settings size equal to the cached size the
detector is a no-op and idempotent. -/
theorem ground_detector_witness :
    ground_change_detector groundSample = groundSample ∧
    ground_change_detector (ground_change_detector groundSample) =
      ground_change_detector groundSample :=
  ⟨(ground_detector_noop_and_idempotent groundSample).1 rfl,
   (ground_detector_noop_and_idempotent groundSample).2⟩

/-- C8: for every combination of movement keys, the frame displacement
of the camera has length at most speed 5 times the elapsed seconds,
with equality whenever the summed direction vector is nonzero. -/
theorem camera_speed_bound (keyboard : KeyState) (delta_secs : ℝ) (t : Transform)
    (hdt : 0 ≤ delta_secs) :
    ((mouse_movement keyboard delta_secs t).translation - t.translation).length ≤
      5 * delta_secs ∧
    (move_direction keyboard t ≠ 0 →
      ((mouse_movement keyboard delta_secs t).translation - t.translation).length =
        5 * delta_secs) := by
  by_cases h : 0 < (move_direction keyboard t).lengthSq
  · have hne : move_direction keyboard t ≠ 0 := by
      intro h0
      rw [h0] at h
      simp [Vec3.lengthSq] at h
    have hstep : (mouse_movement keyboard delta_secs t).translation =
        t.translation + delta_secs • ((5 : ℝ) • (move_direction keyboard t).normalize) := by
      simp only [mouse_movement, if_pos h]
    have hlen : ((mouse_movement keyboard delta_secs t).translation - t.translation).length =
        5 * delta_secs := by
      rw [hstep, Vec3.add_sub_cancel_left_vec, Vec3.length_smul, Vec3.length_smul,
        Vec3.length_normalize _ hne, mul_one, abs_of_nonneg hdt,
        abs_of_nonneg (by norm_num : (0 : ℝ) ≤ 5)]
      ring
    exact ⟨le_of_eq hlen, fun _ => hlen⟩
  · have hdir : move_direction keyboard t = 0 := by
      by_contra h0
      exact h (Vec3.lengthSq_pos _ h0)
    have hstep : mouse_movement keyboard delta_secs t = t := by
      simp only [mouse_movement, if_neg h]
    rw [hstep, Vec3.sub_self_vec, Vec3.length_zero]
    exact ⟨by positivity, fun hcon => absurd hdir hcon⟩

/-- C8 witness: holding W for one second from the identity orientation
moves the camera by exactly 5. -/
theorem camera_speed_bound_witness :
    0 ≤ (1 : ℝ) ∧
    (((mouse_movement keyWOnly 1 idTransform).translation -
        idTransform.translation).length ≤ 5 * 1 ∧
     (move_direction keyWOnly idTransform ≠ 0 →
       ((mouse_movement keyWOnly 1 idTransform).translation -
           idTransform.translation).length = 5 * 1)) :=
  ⟨by norm_num, camera_speed_bound keyWOnly 1 idTransform (by norm_num)⟩

/-- Folding free-look steps over any event list keeps a unit rotation
at unit norm. -/
lemma norm_free_look_fold (sensitivity delta_secs : ℝ) (events : List (ℝ × ℝ)) :
    ∀ rotation : Quat, rotation.norm = 1 →
      (events.foldl
        (fun q event => mouse_free_look_step sensitivity delta_secs event q)
        rotation).norm = 1 := by
  induction events with
  | nil => intro q h; exact h
  | cons e es ih =>
    intro q h
    rw [List.foldl_cons]
    exact ih _ (norm_mouse_free_look_step _ _ _ _ h)

/-- C9: each pointer delta pre-multiplies a yaw quaternion onto the
normalized rotation and post-multiplies a pitch quaternion, and after
any number of such compositions the rotation is still a unit
quaternion under exact arithmetic. -/
theorem free_look_keeps_unit_rotation (window : CursorOptions)
    (sensitivity delta_secs : ℝ) (events : List (ℝ × ℝ)) (rotation : Quat)
    (h : rotation.norm = 1) :
    (mouse_free_look window sensitivity delta_secs events rotation).norm = 1 := by
  rw [mouse_free_look]
  split
  · exact norm_free_look_fold sensitivity delta_secs events rotation h
  · exact h

/-- C9 witness: one event applied to the identity rotation with the
cursor captured leaves a unit quaternion. -/
theorem free_look_keeps_unit_rotation_witness :
    Quat.norm identityQuat = 1 ∧
    (mouse_free_look capturedWindow 0.5 1 [(1, 2)] identityQuat).norm = 1 := by
  have hnorm : identityQuat.norm = 1 := by
    have h1 : identityQuat.normSq = 1 := by norm_num [Quat.normSq, identityQuat]
    rw [Quat.norm, h1, Real.sqrt_one]
  exact ⟨hnorm,
    free_look_keeps_unit_rotation capturedWindow 0.5 1 [(1, 2)] identityQuat hnorm⟩

end BevyPhysics
